import Mathlib

/-!
Shallow embedding of the conversation-state and context-orchestration core of
the Whatsapp-API-AI-GROQ service, translated from the JavaScript sources:

* `src/src/services/conversationService.js` — per-identity conversation
  history store, system-context injection, inbound-turn orchestration;
* `src/src/services/whatsappService.js` — identity normalizer and the
  delivery-with-fallback protocol;
* `src/unnamed/part_000` — the Groq completion request construction and a
  second WhatsAppService variant whose normalizer inserts the Brazilian
  mobile-indicator digit;
* `src/unnamed/part_006` — the geospatial context store with the
  bounding-region check and haversine proximity search.

NodeCache stores are modelled as association lists keyed by strings; the TTL
bookkeeping is elided because no settled claim depends on expiry.  The two
network collaborators (the completion API and the channel send) are modelled
as oracles: their outcomes are inputs of the orchestration function, which
passes state explicitly.  JavaScript numbers appearing in exact arithmetic
(coordinates, bounds) are modelled as rationals; the haversine computation
uses real-valued trigonometric functions.
-/

/-- Role of a conversation turn: the JS code uses the strings "user",
"assistant" and "system". -/
inductive Role where
  | user
  | assistant
  | system
deriving DecidableEq

/-- Test for the system role, embedding the JS comparisons against the
string literal, such as `msg.role !== 'system'`. -/
def Role.isSystem : Role → Bool
  | .system => true
  | _ => false

/-- One conversation turn: a JS object `{role, content}`. -/
structure Message where
  role : Role
  content : String
deriving DecidableEq

/-- Lookup in a keyed store (NodeCache's `get`), first matching key. -/
def mapGet {α : Type} : List (String × α) → String → Option α
  | [], _ => none
  | (k2, v) :: rest, k => if k2 = k then some v else mapGet rest k

/-- Write to a keyed store (NodeCache's `set`): replace the entry in place,
or append a fresh entry when the key is absent. -/
def mapSet {α : Type} : List (String × α) → String → α → List (String × α)
  | [], k, v => [(k, v)]
  | (k2, v2) :: rest, k, v =>
      if k2 = k then (k, v) :: rest else (k2, v2) :: mapSet rest k v

/-- Conversation cache state: the per-identity message log held in
`this.conversationCache` of conversationService.js. -/
abbrev ConvCache := List (String × List Message)

/-- Bound on the stored history: `this.maxMessages = 10`. -/
def maxMessages : Nat := 10

/-- JavaScript `array.slice(-n)` for positive `n`: the trailing window of the
last `n` elements (the whole array when it is shorter). -/
def lastN (n : Nat) (l : List α) : List α := l.drop (l.length - n)

/-- getConversationHistory: `this.conversationCache.get(userId) || []`. -/
def getConversationHistory (cache : ConvCache) (userId : String) : List Message :=
  (mapGet cache userId).getD []

/-- addToConversationHistory: push the message, truncate to the last
`maxMessages` entries with `history.slice(-this.maxMessages)`, store the
truncated history and return it. -/
def addToConversationHistory (cache : ConvCache) (userId : String) (message : Message) :
    ConvCache × List Message :=
  let history := getConversationHistory cache userId ++ [message]
  let limitedHistory := lastN maxMessages history
  (mapSet cache userId limitedHistory, limitedHistory)

/-- Geographic coordinates `{latitude, longitude}`. -/
structure Coordinates where
  latitude : ℚ
  longitude : ℚ
deriving DecidableEq

/-- Place descriptor handled by contextService (src/unnamed/part_006) and
rendered by addSystemContext: required name and description, optional detail
fields, optional coordinates and trigger radius, and the `updatedAt` stamp
written by addContext. -/
structure PlaceContext where
  name : String
  description : String
  info : Option String := none
  services : Option (List String) := none
  events : Option String := none
  history : Option String := none
  operatingHours : Option String := none
  location : Option Coordinates := none
  triggerRadius : Option ℚ := none
  updatedAt : Option String := none
deriving DecidableEq

/-- One optional line of the injected system message: the JS template
interpolates an empty string when the field is absent. -/
def optLine (label : String) : Option String → String
  | some v => label ++ v
  | none => ""

/-- Optional services line: `context.services.join(', ')` when present. -/
def servicesLine : Option (List String) → String
  | some vs => "Serviços disponíveis: " ++ String.intercalate ", " vs
  | none => ""

/-- renderContext reproduces the template literal built by addSystemContext
(conversationService.js lines 74-85), including the final `.trim()`. -/
def renderContext (context : PlaceContext) : String :=
  ("\nInformações sobre o local atual do usuário em Recife:\nNome: "
    ++ context.name
    ++ "\nDescrição: " ++ context.description
    ++ "\n" ++ optLine "Detalhes: " context.info
    ++ "\n" ++ servicesLine context.services
    ++ "\n" ++ optLine "Eventos: " context.events
    ++ "\n" ++ optLine "História: " context.history
    ++ "\n" ++ optLine "Horário de funcionamento: " context.operatingHours
    ++ "\n\nInstruções: Utilize essas informações para fornecer dados precisos e relevantes sobre este local em Recife quando o usuário fizer perguntas relacionadas. Foque suas respostas apenas em informações reais e verificáveis da cidade do Recife. Não forneça informações sobre outras cidades ou invente dados fictícios.\n      ").trim

/-- The system-role turn injected by addSystemContext. -/
def systemContextMessage (context : PlaceContext) : Message :=
  { role := Role.system, content := renderContext context }

/-- addSystemContext: build the system turn, read the current history, remove
every previous system turn, insert the fresh one first, store the result
without truncation and return it. -/
def addSystemContext (cache : ConvCache) (userId : String) (context : PlaceContext) :
    ConvCache × List Message :=
  let contextMessage := systemContextMessage context
  let history := getConversationHistory cache userId
  let filteredHistory := history.filter (fun msg => !msg.role.isSystem)
  let newHistory := contextMessage :: filteredHistory
  (mapSet cache userId newHistory, newHistory)

/-- Outcome of one channel send: success, or a structured failure whose
optional integer models the `result.error?.error?.code` access path used by
the fallback classification. -/
inductive SendResult where
  | ok
  | err (code : Option Int)
deriving DecidableEq

/-- Success flag of a send outcome (`result.success` in the JS). -/
def SendResult.success : SendResult → Bool
  | .ok => true
  | .err _ => false

/-- WhatsApp error code for a message sent outside the 24h customer-service
window (the literal `131047` in sendMessageWithFallback). -/
def windowExpiredCode : Int := 131047

/-- sendMessageWithFallback (whatsappService.js lines 131-142) modelled over
the outcomes of the two possible channel calls; the second component counts
how many template sends were performed during the invocation. -/
def sendMessageWithFallback (direct : SendResult) (template : SendResult) :
    SendResult × Nat :=
  match direct with
  | .ok => (SendResult.ok, 0)
  | .err code =>
      if code = some windowExpiredCode then (template, 1) else (SendResult.err code, 0)

/-- Test for the Brazilian country prefix: `normalized.startsWith('55')`. -/
def starts55 : List Char → Bool
  | c1 :: c2 :: _ => c1 == '5' && c2 == '5'
  | _ => false

/-- normalizePhoneNumber of src/src/services/whatsappService.js, on the
character list of the input: strip non-digit characters, prepend the country
code 55 when it is absent and the number has at most 12 digits, and cap the
result at 15 digits (`substring(0, 15)`). -/
def normChars (l : List Char) : List Char :=
  let normalized := l.filter Char.isDigit
  let normalized2 :=
    if normalized.length ≤ 12 ∧ starts55 normalized = false then
      '5' :: '5' :: normalized
    else normalized
  normalized2.take 15

/-- String-level wrapper of `normChars`, the identity normalizer of
src/src/services/whatsappService.js lines 16-28. -/
def normalizePhoneNumber (phoneNumber : String) : String :=
  String.mk (normChars phoneNumber.data)

/-- normalizePhoneNumber of the WhatsAppService variant in
src/unnamed/part_000 lines 189-222, on the character list of the input:
strip non-digits; a number carrying the 55 prefix with exactly 12 digits gets
the mobile-indicator digit 9 inserted after the two-digit area code
(`slice(0, 4) + '9' + slice(4)`); a number of at most 12 digits without the
prefix gets 55 prepended and then the same 12-digit fixup; anything else
passes through. -/
def normCharsAlt (l : List Char) : List Char :=
  let normalized := l.filter Char.isDigit
  if starts55 normalized then
    if normalized.length = 12 then
      normalized.take 4 ++ '9' :: normalized.drop 4
    else normalized
  else if normalized.length ≤ 12 then
    let withCountry := '5' :: '5' :: normalized
    if withCountry.length = 12 then
      withCountry.take 4 ++ '9' :: withCountry.drop 4
    else withCountry
  else normalized

/-- String-level wrapper of `normCharsAlt`. -/
def normalizePhoneNumberAlt (phoneNumber : String) : String :=
  String.mk (normCharsAlt phoneNumber.data)

/-- getCompletion request construction (groqService.js in
src/unnamed/part_000 lines 19-52): a field-by-field copy of the supplied
history followed by the current user message.  This is the turn sequence the
service sends to the completion API. -/
def getCompletionRequest (conversationHistory : List Message) (userMessage : String) :
    List Message :=
  conversationHistory.map (fun message => { role := message.role, content := message.content })
    ++ [{ role := Role.user, content := userMessage }]

/-- Fixed greeting sent on first contact (`this.welcomeMessage`). -/
def welcomeMessage : String :=
  "✨ *Bem-vindo ao InfoCidadão* ✨\n\n🏙️ Sua ponte digital com a cidade do Recife! Estamos entusiasmados em tê-lo conosco nesta jornada de cidadania ativa e informada.\n\n🧭 *O que fazemos:*\nFornecemos informações em tempo real sobre locais específicos da nossa cidade. Ao chegar em pontos de interesse, você receberá automaticamente dados relevantes sobre o local, serviços disponíveis, história e eventos.\n\n🔔 *Recursos principais:*\n• Notificações baseadas em localização\n• Informações sobre serviços públicos próximos\n• Dados históricos e culturais dos espaços\n• Eventos e atividades na sua região\n• Canais diretos para serviços municipais\n\n🤝 Esta é uma iniciativa da Prefeitura do Recife em parceria com a tecnologia para construir uma cidade mais conectada e cidadãos mais informados.\n\n💡 *Como começar:* Compartilhe sua localização ou digite o nome do local sobre o qual deseja obter informações.\n\nEstamos aqui para tornar sua experiência na cidade mais rica e conectada! 🌆"

/-- Oracle outcomes for the external calls an orchestration run can make:
results of the direct and template sends of the welcome, of the assistant
reply and of the apology notification, and the completion outcome (`some
content` on success, `none` on a structured failure). -/
structure Oracles where
  welcomeDirect : SendResult
  welcomeTemplate : SendResult
  completion : Option String
  replyDirect : SendResult
  replyTemplate : SendResult
  apologyDirect : SendResult
  apologyTemplate : SendResult

/-- Observable outcome of processIncomingMessage: the final cache, the tagged
success flag of the returned object, the turn sequence passed to the
completion API, the stored history at the moment of the completion request,
and how many generic-apology sends were attempted in the catch block. -/
structure ProcOutcome where
  cache : ConvCache
  success : Bool
  completionRequest : List Message
  historyAtRequest : List Message
  apologyAttempts : Nat

/-- sendWelcomeMessage: deliver the fixed greeting via the fallback protocol
and record it as an assistant turn only when the delivery succeeded. -/
def sendWelcomeMessage (o : Oracles) (cache : ConvCache) (userId : String) :
    ConvCache × SendResult :=
  let result := (sendMessageWithFallback o.welcomeDirect o.welcomeTemplate).1
  if result.success then
    ((addToConversationHistory cache userId
        { role := Role.assistant, content := welcomeMessage }).1, result)
  else (cache, result)

/-- processIncomingMessage (conversationService.js lines 108-180) with the
external collaborators supplied as oracles.  The history snapshot is read
first; on first contact the welcome is sent and recorded; the inbound text is
appended as a user turn; `getCompletion(messageText, history)` is called with
the initial snapshot; on completion success the assistant turn is appended
and delivered with fallback; a completion failure or a delivery failure
throws into the catch block, which attempts one best-effort apology send and
returns `{success: false}`. -/
def processIncomingMessage (o : Oracles) (cache : ConvCache) (userId text : String) :
    ProcOutcome :=
  let history := getConversationHistory cache userId
  let isFirstMessage := history.length = 0
  let cache1 := if isFirstMessage then (sendWelcomeMessage o cache userId).1 else cache
  let cache2 := (addToConversationHistory cache1 userId { role := Role.user, content := text }).1
  let request := getCompletionRequest history text
  match o.completion with
  | none =>
      { cache := cache2, success := false, completionRequest := request,
        historyAtRequest := getConversationHistory cache2 userId, apologyAttempts := 1 }
  | some content =>
      let cache3 := (addToConversationHistory cache2 userId
        { role := Role.assistant, content := content }).1
      let result := (sendMessageWithFallback o.replyDirect o.replyTemplate).1
      if result.success then
        { cache := cache3, success := true, completionRequest := request,
          historyAtRequest := getConversationHistory cache2 userId, apologyAttempts := 0 }
      else
        { cache := cache3, success := false, completionRequest := request,
          historyAtRequest := getConversationHistory cache2 userId, apologyAttempts := 1 }

/-- Context store state of contextService (src/unnamed/part_006): the keyed
descriptor cache and the location-trigger registry.  The constructor also
preloads three Recife descriptors through addContext; no settled claim
depends on that seeding, so the state is kept as a parameter. -/
structure ContextState where
  contextCache : List (String × PlaceContext)
  locationTriggers : List (String × (Coordinates × ℚ))
deriving DecidableEq

/-- Bounding-region check of addContext: the `recifeArea` rectangle with
latitude in [-8.16, -7.93] and longitude in [-35.00, -34.80]. -/
def inRecife (latitude longitude : ℚ) : Bool :=
  decide (latitude ≥ -8.16 ∧ latitude ≤ -7.93 ∧ longitude ≥ -35.00 ∧ longitude ≤ -34.80)

/-- addContext (src/unnamed/part_006 lines 117-147): when the descriptor has
coordinates, reject it without any mutation unless it lies inside the
bounding region, and register a location trigger when a radius is supplied;
in every accepted case stamp `updatedAt` with the current time and write the
descriptor into the cache, returning true. -/
def addContext (st : ContextState) (now : String) (id : String)
    (contextData : PlaceContext) : ContextState × Bool :=
  match contextData.location with
  | some loc =>
      if inRecife loc.latitude loc.longitude = false then (st, false)
      else
        let triggers :=
          match contextData.triggerRadius with
          | some r => mapSet st.locationTriggers id (loc, r)
          | none => st.locationTriggers
        let stamped := { contextData with updatedAt := some now }
        ({ contextCache := mapSet st.contextCache id stamped,
           locationTriggers := triggers }, true)
  | none =>
      let stamped := { contextData with updatedAt := some now }
      ({ st with contextCache := mapSet st.contextCache id stamped }, true)

/-- getContext: `this.contextCache.get(id) || null`. -/
def getContext (st : ContextState) (id : String) : Option PlaceContext :=
  mapGet st.contextCache id

/-- deg2rad: `deg * (Math.PI / 180)`. -/
noncomputable def deg2rad (deg : ℝ) : ℝ := deg * (Real.pi / 180)

/-- Model of JavaScript `Math.atan2(y, x)` on real inputs. -/
noncomputable def atan2 (y x : ℝ) : ℝ :=
  if 0 < x then Real.arctan (y / x)
  else if x < 0 ∧ 0 ≤ y then Real.arctan (y / x) + Real.pi
  else if x < 0 ∧ y < 0 then Real.arctan (y / x) - Real.pi
  else if x = 0 ∧ 0 < y then Real.pi / 2
  else if x = 0 ∧ y < 0 then -(Real.pi / 2)
  else 0

/-- calculateDistance (src/unnamed/part_006 lines 217-228): haversine
distance in kilometres with Earth radius 6371 km, coordinates given in
degrees. -/
noncomputable def calculateDistance (lat1 lon1 lat2 lon2 : ℚ) : ℝ :=
  let R : ℝ := 6371
  let dLat := deg2rad ((lat2 : ℝ) - (lat1 : ℝ))
  let dLon := deg2rad ((lon2 : ℝ) - (lon1 : ℝ))
  let a := Real.sin (dLat / 2) * Real.sin (dLat / 2) +
    Real.cos (deg2rad (lat1 : ℝ)) * Real.cos (deg2rad (lat2 : ℝ)) *
      Real.sin (dLon / 2) * Real.sin (dLon / 2)
  let c := 2 * atan2 (Real.sqrt a) (Real.sqrt (1 - a))
  R * c

/-- Model of JavaScript `Math.round` on real inputs: floor of `x + 1/2`. -/
noncomputable def jsRound (x : ℝ) : ℤ := ⌊x + 1 / 2⌋

/-- Entry of a proximity-search result: the JS object
`{id, ...context, distance}` with the distance annotation in rounded
metres. -/
structure NearbyContext where
  id : String
  context : PlaceContext
  distance : ℤ

/-- Comparator of the final `sort((a, b) => a.distance - b.distance)`:
ascending annotated distance. -/
def byDistance (a b : NearbyContext) : Prop := a.distance ≤ b.distance

instance : DecidableRel byDistance :=
  fun a b => inferInstanceAs (Decidable (a.distance ≤ b.distance))

instance : IsTrans NearbyContext byDistance :=
  ⟨fun _ _ _ hab hbc => le_trans hab hbc⟩

instance : IsTotal NearbyContext byDistance :=
  ⟨fun a b => le_total a.distance b.distance⟩

open Classical in
/-- Loop body of findContextsByLocation for one cache entry: skip descriptors
without coordinates, compute the haversine distance in kilometres, keep the
entry when `distance * 1000 <= radius`, annotating it with
`Math.round(distance * 1000)` metres. -/
noncomputable def nearbyEntry (location : Coordinates) (radius : ℝ)
    (entry : String × PlaceContext) : Option NearbyContext :=
  match entry.2.location with
  | some contextLoc =>
      let distance := calculateDistance location.latitude location.longitude
        contextLoc.latitude contextLoc.longitude
      if distance * 1000 ≤ radius then
        some { id := entry.1, context := entry.2, distance := jsRound (distance * 1000) }
      else none
  | none => none

/-- findContextsByLocation (src/unnamed/part_006 lines 181-207): collect the
stored descriptors within the radius (default 500 metres) of the query point
and sort them by ascending annotated distance. -/
noncomputable def findContextsByLocation (st : ContextState) (location : Coordinates)
    (radius : ℝ := 500) : List NearbyContext :=
  List.insertionSort byDistance (st.contextCache.filterMap (nearbyEntry location radius))

/-- Reading back the key just written returns the value just stored. -/
theorem mapGet_mapSet_self {α : Type} (m : List (String × α)) (k : String) (v : α) :
    mapGet (mapSet m k v) k = some v := by
  induction m with
  | nil => simp [mapGet, mapSet]
  | cons e rest ih =>
      obtain ⟨k2, v2⟩ := e
      by_cases h : k2 = k
      · simp [mapSet, h, mapGet]
      · simp [mapSet, h, mapGet, ih]

/-- Conversation-store version of `mapGet_mapSet_self`. -/
theorem getConversationHistory_mapSet (cache : ConvCache) (userId : String)
    (h : List Message) :
    getConversationHistory (mapSet cache userId h) userId = h := by
  simp [getConversationHistory, mapGet_mapSet_self]

/-- History computed by an append: the old history with the message pushed,
truncated to the trailing window. -/
theorem getConversationHistory_add (cache : ConvCache) (userId : String)
    (message : Message) :
    getConversationHistory (addToConversationHistory cache userId message).1 userId
      = lastN maxMessages (getConversationHistory cache userId ++ [message]) := by
  simp [addToConversationHistory, getConversationHistory_mapSet]

/-- C3: for every invocation of the delivery-with-fallback protocol, a direct
send failing with the window-expired code 131047 triggers exactly one
template send whose outcome is the final result; a direct failure with any
other code triggers zero template sends and is itself the final result; at
most one fallback hop ever occurs. -/
theorem sendMessageWithFallback_spec (direct template : SendResult) :
    (direct = SendResult.err (some windowExpiredCode) →
        sendMessageWithFallback direct template = (template, 1)) ∧
    (∀ code, direct = SendResult.err code → code ≠ some windowExpiredCode →
        sendMessageWithFallback direct template = (SendResult.err code, 0)) ∧
    (sendMessageWithFallback direct template).2 ≤ 1 := by
  refine ⟨?_, ?_, ?_⟩
  · rintro rfl
    simp [sendMessageWithFallback]
  · rintro code rfl hne
    simp [sendMessageWithFallback, hne]
  · cases direct with
    | ok => simp [sendMessageWithFallback]
    | err code =>
        by_cases h : code = some windowExpiredCode <;>
          simp [sendMessageWithFallback, h]

/-- Witness for C3: both branches of the classification evaluated at
concrete error payloads. -/
theorem sendMessageWithFallback_spec_witness :
    sendMessageWithFallback (SendResult.err (some windowExpiredCode)) SendResult.ok
        = (SendResult.ok, 1) ∧
    sendMessageWithFallback (SendResult.err (some 130429)) SendResult.ok
        = (SendResult.err (some 130429), 0) :=
  ⟨(sendMessageWithFallback_spec (SendResult.err (some windowExpiredCode)) SendResult.ok).1 rfl,
   (sendMessageWithFallback_spec (SendResult.err (some 130429)) SendResult.ok).2.1
      (some 130429) rfl (by decide)⟩

/-- Unfolding lemma for `normChars` with the lets expanded. -/
theorem normChars_def (l : List Char) :
    normChars l
      = (if (l.filter Char.isDigit).length ≤ 12 ∧ starts55 (l.filter Char.isDigit) = false
          then '5' :: '5' :: l.filter Char.isDigit
          else l.filter Char.isDigit).take 15 := rfl

/-- The prefix test only inspects the first two characters, so a 15-character
cap does not change it. -/
theorem starts55_take_15 (l : List Char) : starts55 (l.take 15) = starts55 l := by
  match l with
  | [] => rfl
  | [_] => rfl
  | _ :: _ :: _ => rfl

/-- Every character of a normalized number is a digit. -/
theorem normChars_all_digit (l : List Char) : ∀ c ∈ normChars l, c.isDigit := by
  intro c hc
  rw [normChars_def] at hc
  have hc2 := List.mem_of_mem_take hc
  split at hc2
  · simp only [List.mem_cons] at hc2
    rcases hc2 with h5 | h5 | hmem
    · rw [h5]; decide
    · rw [h5]; decide
    · exact List.of_mem_filter hmem
  · exact List.of_mem_filter hc2

/-- C5: the identity normalizer of whatsappService.js is a total function on
character lists and is idempotent. -/
theorem normChars_idem (l : List Char) : normChars (normChars l) = normChars l := by
  have hdig : (normChars l).filter Char.isDigit = normChars l :=
    List.filter_eq_self.mpr (normChars_all_digit l)
  by_cases h : (l.filter Char.isDigit).length ≤ 12 ∧ starts55 (l.filter Char.isDigit) = false
  · obtain ⟨h1, h2⟩ := h
    have hy : normChars l = '5' :: '5' :: l.filter Char.isDigit := by
      rw [normChars_def, if_pos ⟨h1, h2⟩]
      exact List.take_of_length_le (by simp; omega)
    rw [normChars_def, hdig, hy]
    rw [if_neg (by simp [starts55])]
    exact List.take_of_length_le (by simp; omega)
  · have hy : normChars l = (l.filter Char.isDigit).take 15 := by
      rw [normChars_def, if_neg h]
    rw [normChars_def, hdig]
    rcases Decidable.not_and_iff_or_not.mp h with hlen | h55
    · have hl : ¬ (normChars l).length ≤ 12 := by
        rw [hy, List.length_take]
        omega
      rw [if_neg (fun hcontra => hl hcontra.1), hy, List.take_take]
      simp
    · have h55' : starts55 (normChars l) = true := by
        rw [hy, starts55_take_15]
        exact Bool.not_eq_false _ |>.mp h55
      rw [if_neg (fun hcontra => by rw [h55'] at hcontra; exact absurd hcontra.2 (by simp)),
        hy, List.take_take]
      simp

/-- C5: the identity normalizer is a total function on strings and is
idempotent: normalizing an already-normalized number returns it unchanged. -/
theorem normalizePhoneNumber_idem (phoneNumber : String) :
    normalizePhoneNumber (normalizePhoneNumber phoneNumber) = normalizePhoneNumber phoneNumber := by
  show String.mk (normChars (normChars phoneNumber.data)) = String.mk (normChars phoneNumber.data)
  rw [normChars_idem]

/-- C6: for every input whose cleaned digits carry the national prefix 55 but
total only 12 digits (missing the mobile-indicator digit), the normalizer of
the WhatsAppService variant in src/unnamed/part_000 inserts the digit 9
right after the two-digit area code, i.e. at index 4 of the digit string,
yielding 13 digits. -/
theorem normalizePhoneNumberAlt_inserts_nine (phoneNumber : String)
    (h55 : starts55 (phoneNumber.data.filter Char.isDigit) = true)
    (hlen : (phoneNumber.data.filter Char.isDigit).length = 12) :
    (normalizePhoneNumberAlt phoneNumber).data
        = (phoneNumber.data.filter Char.isDigit).take 4
            ++ '9' :: (phoneNumber.data.filter Char.isDigit).drop 4 ∧
    (normalizePhoneNumberAlt phoneNumber).length = 13 := by
  have hres : (normalizePhoneNumberAlt phoneNumber).data
      = (phoneNumber.data.filter Char.isDigit).take 4
          ++ '9' :: (phoneNumber.data.filter Char.isDigit).drop 4 := by
    show (normCharsAlt phoneNumber.data) = _
    unfold normCharsAlt
    rw [if_pos h55, if_pos hlen]
  refine ⟨hres, ?_⟩
  show (normalizePhoneNumberAlt phoneNumber).data.length = 13
  rw [hres]
  simp only [List.length_append, List.length_cons, List.length_take, List.length_drop, hlen]
  omega

/-- Witness for C6: a Brazilian landline-formatted number with 12 digits gets
the 9 inserted after the area code 81. -/
theorem normalizePhoneNumberAlt_inserts_nine_witness :
    starts55 (("+55 81 3333-4444").data.filter Char.isDigit) = true ∧
    (("+55 81 3333-4444").data.filter Char.isDigit).length = 12 ∧
    ((normalizePhoneNumberAlt "+55 81 3333-4444").data
        = (("+55 81 3333-4444").data.filter Char.isDigit).take 4
            ++ '9' :: (("+55 81 3333-4444").data.filter Char.isDigit).drop 4 ∧
     (normalizePhoneNumberAlt "+55 81 3333-4444").length = 13) :=
  ⟨by decide, by decide,
   normalizePhoneNumberAlt_inserts_nine "+55 81 3333-4444" (by decide) (by decide)⟩

/-- Sequence of appends of user turns through the history store. -/
def appendUserTurns (cache : ConvCache) (userId : String) (texts : List String) : ConvCache :=
  texts.foldl (fun c t => (addToConversationHistory c userId { role := Role.user, content := t }).1) cache

/-- Cache reached by injecting a system context into an empty history and then
appending nine user turns: ten turns, the system turn first. -/
def cacheWithSystemFull : ConvCache :=
  appendUserTurns
    ((addSystemContext [] "5581999990000" { name := "A", description := "B" }).1)
    "5581999990000"
    ["m1", "m2", "m3", "m4", "m5", "m6", "m7", "m8", "m9"]

/-- The same cache after one more append through the history store. -/
def cacheAfterTenth : ConvCache :=
  (addToConversationHistory cacheWithSystemFull "5581999990000"
    { role := Role.user, content := "m10" }).1

/-- Counterexample to C1: a system turn injected by addSystemContext sits at
position 0 of a ten-turn history; the next append performed by the history
store truncates to the last ten turns counting the system turn, dropping it. -/
theorem addToConversationHistory_drops_system_cex :
    (getConversationHistory cacheWithSystemFull "5581999990000").any
        (fun m => m.role.isSystem) = true ∧
    (getConversationHistory cacheAfterTenth "5581999990000").any
        (fun m => m.role.isSystem) = false ∧
    (getConversationHistory cacheAfterTenth "5581999990000").length = maxMessages :=
  ⟨rfl, rfl, rfl⟩

/-- C1 amended: the trailing-window truncation performed by an append counts
every turn regardless of role, so a turn at position 0 — in particular an
injected system turn — is dropped by an append as soon as the history
already holds at least `maxMessages` turns, and the stored history then has
exactly `maxMessages` turns. -/
theorem addToConversationHistory_truncates_uniformly (cache : ConvCache)
    (userId : String) (message s : Message) (rest : List Message)
    (hhist : getConversationHistory cache userId = s :: rest)
    (hfull : maxMessages ≤ rest.length + 1) :
    getConversationHistory (addToConversationHistory cache userId message).1 userId
        = lastN maxMessages (rest ++ [message]) ∧
    (getConversationHistory (addToConversationHistory cache userId message).1 userId).length
        = maxMessages := by
  rw [getConversationHistory_add, hhist]
  constructor
  · show lastN maxMessages ((s :: rest) ++ [message]) = lastN maxMessages (rest ++ [message])
    unfold lastN
    have hlen1 : ((s :: rest) ++ [message]).length = rest.length + 2 := by simp
    have hlen2 : (rest ++ [message]).length = rest.length + 1 := by simp
    rw [hlen1, hlen2]
    have hstep : rest.length + 2 - maxMessages = (rest.length + 1 - maxMessages) + 1 := by
      omega
    rw [hstep]
    exact List.drop_succ_cons
  · unfold lastN
    simp only [List.length_drop]
    simp only [List.length_append, List.length_cons, List.length_singleton]
    omega

/-- History of ten user turns used by the witness for amended C1. -/
def witnessTenTurns : ConvCache :=
  appendUserTurns [] "5581999990001"
    ["w1", "w2", "w3", "w4", "w5", "w6", "w7", "w8", "w9", "w10"]

/-- Tail of the witness history: the nine turns after the head. -/
def witnessRest : List Message :=
  [{ role := Role.user, content := "w2" }, { role := Role.user, content := "w3" },
   { role := Role.user, content := "w4" }, { role := Role.user, content := "w5" },
   { role := Role.user, content := "w6" }, { role := Role.user, content := "w7" },
   { role := Role.user, content := "w8" }, { role := Role.user, content := "w9" },
   { role := Role.user, content := "w10" }]

/-- Witness for amended C1 at a concrete full history. -/
theorem addToConversationHistory_truncates_uniformly_witness :
    getConversationHistory witnessTenTurns "5581999990001"
        = { role := Role.user, content := "w1" } :: witnessRest ∧
    maxMessages ≤ witnessRest.length + 1 ∧
    (getConversationHistory
        (addToConversationHistory witnessTenTurns "5581999990001"
          { role := Role.user, content := "w11" }).1 "5581999990001"
        = lastN maxMessages (witnessRest ++ [{ role := Role.user, content := "w11" }]) ∧
     (getConversationHistory
        (addToConversationHistory witnessTenTurns "5581999990001"
          { role := Role.user, content := "w11" }).1 "5581999990001").length
        = maxMessages) :=
  ⟨by decide, by decide,
   addToConversationHistory_truncates_uniformly witnessTenTurns "5581999990001"
     { role := Role.user, content := "w11" } { role := Role.user, content := "w1" }
     witnessRest (by decide) (by decide)⟩

/-- Shape of the history stored by addSystemContext: the fresh system turn
first, then the previous history with every system turn removed. -/
theorem addSystemContext_shape (cache : ConvCache) (userId : String)
    (context : PlaceContext) :
    getConversationHistory (addSystemContext cache userId context).1 userId
      = systemContextMessage context
          :: (getConversationHistory cache userId).filter (fun msg => !msg.role.isSystem) := by
  show getConversationHistory (mapSet cache userId _) userId = _
  rw [getConversationHistory_mapSet]

/-- C9: for every identity and contexts A and B, injecting A and then B
leaves exactly one system-role turn in the stored history; it sits at
position 0 and its content is the deterministic rendering of B's fields.
Any previously present system turn is removed wherever it sat, because the
statement holds for an arbitrary starting cache. -/
theorem addSystemContext_exclusive (cache : ConvCache) (userId : String)
    (contextA contextB : PlaceContext) :
    (getConversationHistory
        ((addSystemContext ((addSystemContext cache userId contextA).1) userId contextB).1)
        userId).head?
        = some { role := Role.system, content := renderContext contextB } ∧
    (getConversationHistory
        ((addSystemContext ((addSystemContext cache userId contextA).1) userId contextB).1)
        userId).countP (fun m => m.role.isSystem) = 1 := by
  rw [addSystemContext_shape]
  constructor
  · rfl
  · rw [List.countP_cons]
    have hzero : ((getConversationHistory ((addSystemContext cache userId contextA).1) userId).filter
        (fun msg => !msg.role.isSystem)).countP (fun m => m.role.isSystem) = 0 := by
      rw [List.countP_eq_zero]
      intro m hm
      have := List.of_mem_filter hm
      simp only [Bool.not_eq_true'] at this
      simp [this]
    rw [hzero]
    simp [systemContextMessage, Role.isSystem]

/-- C7: a descriptor with coordinates outside the configured bounding box is
rejected by addContext without any mutation — the unchanged state is
returned with failure, so a fresh id remains absent — while in-region
coordinates lead to success, with the descriptor stored under the id and
stamped with the current time. -/
theorem addContext_region_check (st : ContextState) (now id : String)
    (contextData : PlaceContext) (loc : Coordinates)
    (hloc : contextData.location = some loc) :
    (inRecife loc.latitude loc.longitude = false →
        addContext st now id contextData = (st, false) ∧
        (mapGet st.contextCache id = none →
          getContext (addContext st now id contextData).1 id = none)) ∧
    (inRecife loc.latitude loc.longitude = true →
        (addContext st now id contextData).2 = true ∧
        getContext (addContext st now id contextData).1 id
          = some { contextData with updatedAt := some now }) := by
  constructor
  · intro hout
    have heq : addContext st now id contextData = (st, false) := by
      unfold addContext
      rw [hloc]
      simp [hout]
    refine ⟨heq, ?_⟩
    intro habsent
    rw [heq]
    show mapGet st.contextCache id = none
    exact habsent
  · intro hin
    have heq : (addContext st now id contextData).1.contextCache
        = mapSet st.contextCache id { contextData with updatedAt := some now } := by
      unfold addContext
      rw [hloc]
      simp [hin]
    constructor
    · unfold addContext
      rw [hloc]
      simp [hin]
    · show mapGet (addContext st now id contextData).1.contextCache id = _
      rw [heq, mapGet_mapSet_self]

/-- Witness for C7: an out-of-region descriptor (the origin) is rejected and
stays absent; the Marco Zero coordinates are accepted and stored stamped. -/
theorem addContext_region_check_witness :
    (addContext ⟨[], []⟩ "2024-01-01T00:00:00.000Z" "far"
        { name := "X", description := "Y", location := some ⟨0, 0⟩ }
        = (⟨[], []⟩, false) ∧
     getContext (addContext ⟨[], []⟩ "2024-01-01T00:00:00.000Z" "far"
        { name := "X", description := "Y", location := some ⟨0, 0⟩ }).1 "far" = none) ∧
    ((addContext ⟨[], []⟩ "2024-01-01T00:00:00.000Z" "marco_zero"
        { name := "Marco Zero", description := "Praça central",
          location := some ⟨-8.063053, -34.871099⟩ }).2 = true ∧
     getContext (addContext ⟨[], []⟩ "2024-01-01T00:00:00.000Z" "marco_zero"
        { name := "Marco Zero", description := "Praça central",
          location := some ⟨-8.063053, -34.871099⟩ }).1 "marco_zero"
        = some { name := "Marco Zero", description := "Praça central",
                 location := some ⟨-8.063053, -34.871099⟩,
                 updatedAt := some "2024-01-01T00:00:00.000Z" }) :=
  ⟨(addContext_region_check ⟨[], []⟩ "2024-01-01T00:00:00.000Z" "far"
      { name := "X", description := "Y", location := some ⟨0, 0⟩ } ⟨0, 0⟩ rfl).1
      (by norm_num [inRecife]) |>.imp id (fun h => h rfl),
   (addContext_region_check ⟨[], []⟩ "2024-01-01T00:00:00.000Z" "marco_zero"
      { name := "Marco Zero", description := "Praça central",
        location := some ⟨-8.063053, -34.871099⟩ } ⟨-8.063053, -34.871099⟩ rfl).2
      (by norm_num [inRecife])⟩

/-- C10: a descriptor without any location field bypasses the bounding-region
validation entirely: addContext succeeds for every such descriptor and
stores it (stamped with the current time) under the id. -/
theorem addContext_no_location (st : ContextState) (now id : String)
    (contextData : PlaceContext)
    (hloc : contextData.location = none) :
    addContext st now id contextData
        = ({ st with contextCache := mapSet st.contextCache id { contextData with updatedAt := some now } }, true) ∧
    getContext (addContext st now id contextData).1 id
        = some { contextData with updatedAt := some now } := by
  have heq : addContext st now id contextData
      = ({ st with contextCache := mapSet st.contextCache id { contextData with updatedAt := some now } }, true) := by
    unfold addContext
    rw [hloc]
  refine ⟨heq, ?_⟩
  rw [heq]
  show mapGet (mapSet st.contextCache id _) id = _
  rw [mapGet_mapSet_self]

/-- Witness for C10: a descriptor with out-of-region-looking detail but no
location field is accepted and stored. -/
theorem addContext_no_location_witness :
    addContext ⟨[], []⟩ "2024-01-01T00:00:00.000Z" "generic"
        { name := "Aviso", description := "Sem local" }
        = (⟨[("generic", { name := "Aviso", description := "Sem local", updatedAt := some "2024-01-01T00:00:00.000Z" })], []⟩, true) ∧
    getContext (addContext ⟨[], []⟩ "2024-01-01T00:00:00.000Z" "generic"
        { name := "Aviso", description := "Sem local" }).1 "generic"
        = some { name := "Aviso", description := "Sem local", updatedAt := some "2024-01-01T00:00:00.000Z" } :=
  addContext_no_location ⟨[], []⟩ "2024-01-01T00:00:00.000Z" "generic"
    { name := "Aviso", description := "Sem local" } rfl

/-- Concrete oracle run in which the completion succeeds and the delivery of
the assistant reply fails with a non-window error. -/
def oracleDeliveryFail : Oracles :=
  { welcomeDirect := SendResult.ok, welcomeTemplate := SendResult.ok,
    completion := some "Olá!",
    replyDirect := SendResult.err none, replyTemplate := SendResult.ok,
    apologyDirect := SendResult.ok, apologyTemplate := SendResult.ok }

/-- Counterexample to C4: when the completion succeeds and the delivery of
the reply fails, processIncomingMessage returns a failed outcome but the
generic-apology notification path in the catch block IS invoked (one
attempt), contradicting the claim that it is not invoked. -/
theorem processIncomingMessage_apology_cex :
    (processIncomingMessage oracleDeliveryFail [] "5581999990000" "oi").success = false ∧
    (processIncomingMessage oracleDeliveryFail [] "5581999990000" "oi").apologyAttempts ≠ 0 :=
  ⟨rfl, by decide⟩

/-- C4 amended: when the completion succeeds but the delivery of the
assistant reply fails, the invocation returns a failed outcome to the caller
and the generic-apology notification path is invoked exactly once
(best-effort, in the catch block). -/
theorem processIncomingMessage_delivery_failure (o : Oracles) (cache : ConvCache)
    (userId text content : String)
    (hcomp : o.completion = some content)
    (hsend : (sendMessageWithFallback o.replyDirect o.replyTemplate).1.success = false) :
    (processIncomingMessage o cache userId text).success = false ∧
    (processIncomingMessage o cache userId text).apologyAttempts = 1 := by
  unfold processIncomingMessage
  rw [hcomp]
  simp [hsend]

/-- Witness for amended C4 at the concrete failing-delivery oracles. -/
theorem processIncomingMessage_delivery_failure_witness :
    oracleDeliveryFail.completion = some "Olá!" ∧
    (sendMessageWithFallback oracleDeliveryFail.replyDirect
        oracleDeliveryFail.replyTemplate).1.success = false ∧
    ((processIncomingMessage oracleDeliveryFail [] "5581999990001" "oi").success = false ∧
     (processIncomingMessage oracleDeliveryFail [] "5581999990001" "oi").apologyAttempts = 1) :=
  ⟨rfl, rfl,
   processIncomingMessage_delivery_failure oracleDeliveryFail [] "5581999990001" "oi"
     "Olá!" rfl rfl⟩

/-- Concrete oracle run for a fully successful first contact. -/
def oracleFirstContact : Oracles :=
  { welcomeDirect := SendResult.ok, welcomeTemplate := SendResult.ok,
    completion := some "Olá!",
    replyDirect := SendResult.ok, replyTemplate := SendResult.ok,
    apologyDirect := SendResult.ok, apologyTemplate := SendResult.ok }

/-- Counterexample to C8: on a successful first contact the stored history at
the time of the completion request holds two turns (the welcome assistant
turn and the inbound user turn), but the sequence actually passed to the
completion collaborator holds only one turn — the pre-append snapshot plus
the inbound text — so the request is not the current stored history. -/
theorem processIncomingMessage_request_cex :
    (processIncomingMessage oracleFirstContact [] "5581999990000" "oi").completionRequest.length
        = 1 ∧
    (processIncomingMessage oracleFirstContact [] "5581999990000" "oi").historyAtRequest.length
        = 2 ∧
    (processIncomingMessage oracleFirstContact [] "5581999990000" "oi").completionRequest
        ≠ (processIncomingMessage oracleFirstContact [] "5581999990000" "oi").historyAtRequest :=
  ⟨rfl, rfl, fun h => absurd (congrArg List.length h) (by decide)⟩

/-- C8 amended: the turn sequence passed to the completion collaborator is
the history snapshot read at the start of processing — before the
first-contact welcome is recorded and before the inbound user turn is
appended to the store — with the inbound user turn appended by the
collaborator itself, so it always ends with the inbound user turn but does
not reflect the welcome turn or the truncation performed in the store. -/
theorem processIncomingMessage_request (o : Oracles) (cache : ConvCache)
    (userId text : String) :
    (processIncomingMessage o cache userId text).completionRequest
        = getConversationHistory cache userId ++ [{ role := Role.user, content := text }] ∧
    (processIncomingMessage o cache userId text).completionRequest.getLast?
        = some { role := Role.user, content := text } := by
  have hreq : (processIncomingMessage o cache userId text).completionRequest
      = getCompletionRequest (getConversationHistory cache userId) text := by
    unfold processIncomingMessage
    cases o.completion
    · rfl
    · dsimp only
      split
      · rfl
      · rfl
  have hcopy : getCompletionRequest (getConversationHistory cache userId) text
      = getConversationHistory cache userId ++ [{ role := Role.user, content := text }] := by
    unfold getCompletionRequest
    rw [List.map_id'' (fun m => rfl)]
  refine ⟨hreq.trans hcopy, ?_⟩
  rw [hreq, hcopy]
  exact List.getLast?_concat _

/-- Characterization of the loop body: an entry produces a result exactly
when it has coordinates within the radius, and the result is the annotated
record. -/
theorem nearbyEntry_eq_some_iff (location : Coordinates) (radius : ℝ)
    (entry : String × PlaceContext) (x : NearbyContext) :
    nearbyEntry location radius entry = some x ↔
      ∃ contextLoc, entry.2.location = some contextLoc ∧
        calculateDistance location.latitude location.longitude
            contextLoc.latitude contextLoc.longitude * 1000 ≤ radius ∧
        x = { id := entry.1, context := entry.2,
              distance := jsRound (calculateDistance location.latitude location.longitude
                contextLoc.latitude contextLoc.longitude * 1000) } := by
  obtain ⟨id, context⟩ := entry
  unfold nearbyEntry
  dsimp only
  split
  next contextLoc heq =>
    constructor
    · intro hf
      by_cases hd : calculateDistance location.latitude location.longitude
          contextLoc.latitude contextLoc.longitude * 1000 ≤ radius
      · rw [if_pos hd] at hf
        exact ⟨contextLoc, heq, hd, (Option.some.inj hf).symm⟩
      · rw [if_neg hd] at hf
        cases hf
    · rintro ⟨contextLoc2, hloc2, hd, hx⟩
      have hsame : contextLoc = contextLoc2 := Option.some.inj (heq.symm.trans hloc2)
      subst hsame
      rw [if_pos hd, hx]
  next heq =>
    simp [heq]

/-- C2: findContextsByLocation returns exactly the stored descriptors that
have coordinates whose haversine distance (Earth radius 6371 km, degrees
converted to radians) to the query point is at most the radius in metres
(500 by default), each annotated with its distance in metres (rounded by
`Math.round`), and the result is sorted ascending by the annotated
distance. -/
theorem findContextsByLocation_spec (st : ContextState) (location : Coordinates)
    (radius : ℝ) :
    List.Sorted byDistance (findContextsByLocation st location radius) ∧
    ∀ x, x ∈ findContextsByLocation st location radius ↔
      ∃ id context contextLoc,
        (id, context) ∈ st.contextCache ∧
        context.location = some contextLoc ∧
        calculateDistance location.latitude location.longitude
            contextLoc.latitude contextLoc.longitude * 1000 ≤ radius ∧
        x = { id := id, context := context,
              distance := jsRound (calculateDistance location.latitude location.longitude
                contextLoc.latitude contextLoc.longitude * 1000) } := by
  constructor
  · exact List.sorted_insertionSort byDistance _
  · intro x
    unfold findContextsByLocation
    rw [List.mem_insertionSort, List.mem_filterMap]
    constructor
    · rintro ⟨⟨id, context⟩, hmem, hf⟩
      rcases (nearbyEntry_eq_some_iff location radius (id, context) x).mp hf with
        ⟨contextLoc, hloc, hd, hx⟩
      exact ⟨id, context, contextLoc, hmem, hloc, hd, hx⟩
    · rintro ⟨id, context, contextLoc, hmem, hloc, hd, hx⟩
      exact ⟨(id, context), hmem,
        (nearbyEntry_eq_some_iff location radius (id, context) x).mpr
          ⟨contextLoc, hloc, hd, hx⟩⟩
